import Mathlib

/-!
Verification development for the appwrite-types-gen schema-to-declaration
generation engine.  The definitions below are a shallow embedding of the
TypeScript sources (src/generator/type-converters.ts, enum-generator.ts,
interface-generator.ts, id-constants-generator.ts and generator/index.ts):
strings are modelled as Lean `String`/`List Char`, JavaScript `undefined`
as `Option`, thrown exceptions as `Except`, and the file-reading boundary
of the pipeline as an explicit `Except`-valued load result.
-/

set_option maxRecDepth 100000

/-! ## Character classes (ASCII, as used by the source's regexes) -/

/-- The lowercase ASCII letters, the class `a-z` of the source's regexes. -/
def lowerChars : List Char :=
  ['a','b','c','d','e','f','g','h','i','j','k','l','m',
   'n','o','p','q','r','s','t','u','v','w','x','y','z']

/-- The uppercase ASCII letters, the class `A-Z` of the source's regexes. -/
def upperLetterChars : List Char :=
  ['A','B','C','D','E','F','G','H','I','J','K','L','M',
   'N','O','P','Q','R','S','T','U','V','W','X','Y','Z']

/-- The ASCII digits, the class `0-9` of the source's regexes. -/
def digitChars : List Char := ['0','1','2','3','4','5','6','7','8','9']

/-- The class `[a-zA-Z0-9]` of the source's regexes. -/
def alnumChars : List Char := lowerChars ++ upperLetterChars ++ digitChars

/-- The class `[a-zA-Z0-9_]` of the source's regexes (word characters). -/
def wordChars : List Char := alnumChars ++ ['_']

/-- The uppercase word characters `[A-Z0-9_]`. -/
def upperWordChars : List Char := upperLetterChars ++ digitChars ++ ['_']

/-- Membership in `wordChars`, the test behind `replace(/[^a-zA-Z0-9_]/g, ...)`. -/
def isWordChar (c : Char) : Bool := wordChars.contains c

/-- Membership in `alnumChars`, the test behind `replace(/[^a-zA-Z0-9]/g, ...)`. -/
def isAlnumChar (c : Char) : Bool := alnumChars.contains c

/-- Membership in `upperWordChars`. -/
def isUpperWordChar (c : Char) : Bool := upperWordChars.contains c

/-- Membership in `digitChars`, the test behind `replace(/^(\d)/, ...)`. -/
def isDigitChar (c : Char) : Bool := digitChars.contains c

/-- JavaScript whitespace (`\s`, `trim`): space, tab, newline, carriage
return, vertical tab and form feed. -/
def isJsWs (c : Char) : Bool :=
  c = ' ' ∨ c = '\t' ∨ c = '\n' ∨ c = '\r' ∨ c = '\x0b' ∨ c = '\x0c'

/-! ## Small string utilities shared by the generators -/

/-- Model of `Array.prototype.join(sep)`: the empty list joins to the empty string. -/
def joinSep (sep : String) : List String → String
  | [] => ""
  | [x] => x
  | x :: y :: xs => x ++ sep ++ joinSep sep (y :: xs)

/-- Wrap a string in double quotes, as the enum/union emitters do. -/
def quoteStr (s : String) : String := "\"" ++ s ++ "\""

/-- Model of `String.prototype.split(/[-_]/)`: split on every dash or underscore,
keeping empty segments; the empty string splits to `[""]`. -/
def splitDashUnderscore : List Char → List (List Char)
  | [] => [[]]
  | c :: cs =>
    let r := splitDashUnderscore cs
    if c = '-' ∨ c = '_' then [] :: r
    else
      match r with
      | [] => [[c]]
      | x :: xs => (c :: x) :: xs

/-- Model of `word.charAt(0).toUpperCase() + word.slice(1)` on one segment. -/
def capitalizeSeg : List Char → List Char
  | [] => []
  | c :: cs => c.toUpper :: cs

/-- Capitalize every segment and concatenate (the "pascal" step of the
source's `.map(word => ...).join('')`). -/
def pascalConcat (segs : List (List Char)) : List Char :=
  (segs.map capitalizeSeg).flatten

/-- Model of `String.prototype.replace(/s$/, '')`: drop one trailing lowercase `s`. -/
def stripTrailingLowerS (l : List Char) : List Char :=
  if l.getLast? = some 's' then l.dropLast else l

/-- Does `pat` occur at the start of `s`? -/
def startsWithSub : List Char → List Char → Bool
  | [], _ => true
  | _ :: _, [] => false
  | p :: ps, c :: cs => p = c && startsWithSub ps cs

/-- Does `pat` occur anywhere inside `s` (substring test)? -/
def containsSub (pat : List Char) : List Char → Bool
  | [] => startsWithSub pat []
  | c :: cs => startsWithSub pat (c :: cs) || containsSub pat cs

/-- Interpolation of a possibly-`undefined` string into a template literal:
JavaScript renders `undefined` as the text `undefined`. -/
def optStr : Option String → String
  | some s => s
  | none => "undefined"

/-- Interpolation of a boolean into a template literal. -/
def boolToStr (b : Bool) : String := if b then "true" else "false"

/-! ## TypeConverter (src/generator/type-converters.ts) -/

/-- The fixed primitive table `PRIMITIVE_TYPE_MAP` of type-converters.ts. -/
def PRIMITIVE_TYPE_MAP : List (String × String) :=
  [("string", "string"), ("integer", "number"), ("float", "number"),
   ("boolean", "boolean"), ("datetime", "string")]

/-- Model of `PRIMITIVE_TYPE_MAP.hasOwnProperty` / indexing, as an `Option` lookup. -/
def primLookup (t : String) : Option String :=
  (PRIMITIVE_TYPE_MAP.find? (fun p => p.1 = t)).map (fun p => p.2)

/-- An Appwrite attribute descriptor.  Optional JSON fields are `Option`;
the relationship fields live on the same record, as in the TypeScript
source where `RelationshipAttribute` extends `AppwriteAttribute` and the
converter reaches them through a cast. -/
structure AppwriteAttribute where
  key : String
  type : String
  required : Bool
  array : Bool
  size : Option Nat
  elements : Option (List String)
  format : Option String
  relatedCollection : Option String
  relationType : Option String
  twoWay : Option Bool
  twoWayKey : Option String
  side : Option String
  onDelete : Option String
deriving DecidableEq, Repr

/-- The optional error-reporting context of `convertToTSType`. -/
structure ConvertContext where
  collectionName : Option String
  attributeName : Option String
deriving DecidableEq, Repr

/-- The errors `convertToTSType` can throw: the two `validateAttribute`
messages, the TypeError a missing `relatedCollection` would raise in
JavaScript, and the unsupported-type error of `handleUnsupportedType`. -/
inductive ConvertError where
  | invalidAttribute (msg : String)
  | typeErrorUndefined (msg : String)
  | unsupportedType (attrType : String) (errCtx : String)
deriving DecidableEq, Repr

/-- The `errorContext` string built by `handleUnsupportedType`. -/
def errorContextStr : Option ConvertContext → String
  | some c =>
    "in " ++ (c.collectionName.getD "unknown") ++ " collection, attribute " ++
      (c.attributeName.getD "unknown")
  | none => ""

/-- The message carried by each thrown error. -/
def convertErrorMessage : ConvertError → String
  | .invalidAttribute m => m
  | .typeErrorUndefined m => m
  | .unsupportedType t errCtx => "Unsupported attribute type: " ++ t ++ " " ++ errCtx

/-- Model of `attribute.elements?.length` as a truthiness test. -/
def elementsNonempty (a : AppwriteAttribute) : Bool :=
  match a.elements with
  | some (_ :: _) => true
  | _ => false

/-- Model of `TypeConverter.handleEnumType`. -/
def handleEnumType (a : AppwriteAttribute) : String :=
  let enumValues := joinSep " | " ((a.elements.getD []).map quoteStr)
  if a.array then "(" ++ enumValues ++ ")[]" else enumValues

/-- Model of `TypeConverter.handleArrayType`. -/
def handleArrayType (a : AppwriteAttribute) (baseType : String) : String :=
  match a.elements with
  | some (e :: es) => "(" ++ joinSep " | " ((e :: es).map quoteStr) ++ ")[]"
  | _ => "Array<" ++ baseType ++ ">"

/-- The related-collection interface name computed inside the relationship
branch of `convertToTSType`: split on `-`/`_`, capitalize each segment,
join, and only then drop one trailing lowercase `s`. -/
def relatedTypeName (rc : String) : String :=
  String.mk (stripTrailingLowerS (pascalConcat (splitDashUnderscore rc.data)))

/-- The related-collection name as claim C8 words it: drop a trailing
plural `s` first, then split on `-`/`_` and capitalize each segment. -/
def relatedTypeNameSpecOrder (rc : String) : String :=
  String.mk (pascalConcat (splitDashUnderscore (stripTrailingLowerS rc.data)))

/-- Model of `TypeConverter.convertToTSType`.  The `validateAttribute` falsiness
checks become emptiness checks; a thrown JavaScript error becomes an
`Except.error`. -/
def convertToTSType (a : AppwriteAttribute) (context : Option ConvertContext) :
    Except ConvertError String :=
  if a.key = "" then
    .error (.invalidAttribute "Attribute must have a valid string key")
  else if a.type = "" then
    .error (.invalidAttribute "Attribute must have a valid string type")
  else if a.format = some "enum" ∧ elementsNonempty a = true then
    .ok (handleEnumType a)
  else if a.type = "relationship" then
    match a.relatedCollection with
    | none =>
      .error (.typeErrorUndefined
        "TypeError: Cannot read properties of undefined (reading split)")
    | some rc =>
      let name := relatedTypeName rc
      if a.relationType = some "oneToMany" then
        .ok (if a.side = some "parent" then name ++ "[]" else name ++ " | null")
      else if a.relationType = some "manyToOne" then
        .ok (if a.side = some "parent" then name ++ " | null" else name ++ "[]")
      else if a.relationType = some "oneToOne" ∨ a.relationType = some "manyToMany" then
        .ok (name ++ "[]")
      else
        .ok "string | RelationshipReference"
  else
    match primLookup a.type with
    | none => .error (.unsupportedType a.type (errorContextStr context))
    | some baseType => .ok (if a.array then handleArrayType a baseType else baseType)

/-! ## EnumGenerator (src/generator/enum-generator.ts) -/

/-- A collection as the generators receive it: a name and its attributes. -/
structure CollectionInput where
  name : String
  attributes : List AppwriteAttribute
deriving DecidableEq, Repr

/-- Configuration for enum generation; `none` models an omitted field that
falls back to `DEFAULT_CONFIG` (enums on, union types on, pascal naming). -/
structure EnumGenConfig where
  generateEnums : Option Bool
  generateUnionTypes : Option Bool
  namingStrategy : Option String
deriving DecidableEq, Repr

/-- The all-defaults enum configuration. -/
def defaultEnumCfg : EnumGenConfig := ⟨none, none, none⟩

/-- Model of `EnumGenerator.formatEnumKey`: replace every character outside
`[a-zA-Z0-9]` by `_`, uppercase, then apply the naming strategy. -/
def formatEnumKey (value : String) (strategy : Option String) : String :=
  let sanitizedKey :=
    String.mk ((value.data.map (fun c => if isAlnumChar c then c else '_')).map Char.toUpper)
  match strategy with
  | some "pascal" => sanitizedKey
  | some "camel" =>
    match sanitizedKey.data with
    | [] => ""
    | c :: cs => String.mk (c.toLower :: cs)
  | some "snake" => String.mk (sanitizedKey.data.map Char.toLower)
  | _ => sanitizedKey

/-- Model of `EnumGenerator.generateTypeName`: the collection name is singularized
(one trailing lowercase `s` dropped) *before* splitting, then both parts
are pascal-cased and concatenated. -/
def generateTypeName (collectionName attributeName : String) : String :=
  String.mk (pascalConcat (splitDashUnderscore (stripTrailingLowerS collectionName.data))) ++
    String.mk (pascalConcat (splitDashUnderscore attributeName.data))

/-- Model of `EnumGenerator.generateEnum`: one `export enum` declaration. -/
def generateEnum (typeName : String) (elements : List String)
    (namingStrategy : Option String) : String :=
  let enumValues := joinSep ",\n" (elements.map (fun element =>
    "  /** Represents the " ++ element ++ " option */\n  " ++
      formatEnumKey element namingStrategy ++ " = \"" ++ element ++ "\""))
  "\n/**\n * Enum representing " ++ typeName ++
    "\n * Provides type-safe representation of possible values\n */\nexport enum " ++
    typeName ++ " \x7b\n" ++ enumValues ++ "\n\x7d\n"

/-- Model of `EnumGenerator.generateUnionType`: one `export type` alias. -/
def generateUnionType (typeName : String) (elements : List String) : String :=
  "\n/**\n * Union type representing " ++ typeName ++
    "\n * Provides flexible type definition for possible values\n */\nexport type " ++
    typeName ++ "Type = " ++ joinSep " | " (elements.map quoteStr) ++ ";\n"

/-- Model of `Map.prototype.set` on an association list: an existing key keeps its
original position but takes the new value; a new key is appended. -/
def mapSet (m : List (String × List String)) (k : String) (v : List String) :
    List (String × List String) :=
  if m.any (fun p => p.1 = k) then
    m.map (fun p => if p.1 = k then (k, v) else p)
  else m ++ [(k, v)]

/-- Model of `EnumGenerator.extractEnumTypes`: scan all attributes of all
collections for enum attributes with a non-empty element list. -/
def extractEnumTypes (collections : List CollectionInput) :
    List (String × List String) :=
  collections.foldl (fun m col =>
    col.attributes.foldl (fun m attr =>
      if attr.format = some "enum" ∧ elementsNonempty attr = true then
        mapSet m (generateTypeName col.name attr.key) (attr.elements.getD [])
      else m) m) []

/-- The pair of text blocks returned by `generateEnumDefinitions`. -/
structure EnumDefs where
  enumDefinitions : String
  typeDefinitions : String
deriving DecidableEq, Repr

/-- Model of `EnumGenerator.generateEnumDefinitions`: fold over the extracted enum
map in insertion order, accumulating the enabled sections. -/
def generateEnumDefinitions (collections : List CollectionInput)
    (config : EnumGenConfig) : EnumDefs :=
  let ge := config.generateEnums.getD true
  let gu := config.generateUnionTypes.getD true
  let ns := some (config.namingStrategy.getD "pascal")
  (extractEnumTypes collections).foldl (fun acc p =>
    ⟨acc.enumDefinitions ++ (if ge then generateEnum p.1 p.2 ns else ""),
     acc.typeDefinitions ++ (if gu then generateUnionType p.1 p.2 else "")⟩)
    ⟨"", ""⟩

/-! ## InterfaceGenerator (src/generator/interface-generator.ts) -/

/-- Interface-generation configuration after the merge with
`DEFAULT_CONFIG`; `pfx`/`sfx` model `interfacePrefix`/`interfaceSuffix`. -/
structure InterfaceGenConfig where
  includeMetadata : Bool
  optionalMetadata : Bool
  pfx : String
  sfx : String
deriving DecidableEq, Repr

/-- The defaults: metadata included and optional, no prefix or suffix. -/
def defaultInterfaceCfg : InterfaceGenConfig := ⟨true, true, "", ""⟩

/-- Model of `InterfaceGenerator.generateInterfaceName`: singularize *before*
splitting, pascal-case, then wrap in the configured prefix/suffix. -/
def generateInterfaceName (collectionName pfx sfx : String) : String :=
  pfx ++ String.mk (pascalConcat (splitDashUnderscore (stripTrailingLowerS collectionName.data))) ++ sfx

/-- Model of `InterfaceGenerator.generateAttributeComments`: the descriptive
comment lines placed before a field. -/
def generateAttributeComments (a : AppwriteAttribute) : String :=
  let sizeComments : List String :=
    match a.size with
    | some n => if n ≠ 0 then ["/** Maximum size: " ++ toString n ++ " characters */"] else []
    | none => []
  let enumComments : List String :=
    if a.format = some "enum" ∧ a.elements.isSome then
      ["/** Possible values: " ++ joinSep ", " (a.elements.getD []) ++ " */"]
    else []
  let relComments : List String :=
    if a.type = "relationship" then
      ["/** Relationship type: " ++ optStr a.relationType ++ " */",
       "/** Related collection: " ++ optStr a.relatedCollection ++ " */"] ++
      (if a.twoWay = some true then
        ["/** Two-way relationship with key: " ++ optStr a.twoWayKey ++ " */"]
       else []) ++
      ["/** Deletion behavior: " ++ optStr a.onDelete ++ " */"]
    else []
  let comments := sizeComments ++ enumComments ++ relComments
  if comments = [] then ""
  else String.join (comments.map (fun comment => "  " ++ comment ++ "\n"))

/-- Model of `InterfaceGenerator.generateAttributeDefinition`: comments, the key,
the `?` marker for non-required attributes, and the converted type. -/
def generateAttributeDefinition (a : AppwriteAttribute) :
    Except ConvertError String := do
  let optMark := if !a.required then "?" else ""
  let typeName ← convertToTSType a (some ⟨none, some a.key⟩)
  let comments := generateAttributeComments a
  pure (comments ++ "  " ++ a.key ++ optMark ++ ": " ++ typeName ++ ";")

/-- Model of `InterfaceGenerator.generateAttributeDefinitions`. -/
def generateAttributeDefinitions (attrs : List AppwriteAttribute) :
    Except ConvertError String := do
  let defs ← attrs.mapM generateAttributeDefinition
  pure (joinSep "\n" (defs.filter (fun d => d ≠ "")))

/-- The fixed metadata block of `addMetadataFields`. -/
def metadataFieldsBlock (optionalMeta : Bool) : String :=
  let m := if optionalMeta then "?" else ""
  "\n  /** Unique document identifier */\n  $id" ++ m ++
    ": string;\n\n  /** Document creation timestamp */\n  $createdAt" ++ m ++
    ": string;\n\n  /** Document last update timestamp */\n  $updatedAt" ++ m ++
    ": string;\n\n  /** Database identifier */\n  $databaseId" ++ m ++
    ": string;\n\n  /** Collection identifier */\n  $collectionId" ++ m ++
    ": string;\n\n  /** Document-level permissions */\n  $permissions" ++ m ++
    ": string[];\n"

/-- Model of `InterfaceGenerator.addMetadataFields`. -/
def addMetadataFields (attributes : String) (optionalMeta : Bool) : String :=
  metadataFieldsBlock optionalMeta ++ (if attributes ≠ "" then "\n" ++ attributes else "")

/-- Model of `InterfaceGenerator.generateCollectionInterface`. -/
def generateCollectionInterface (col : CollectionInput)
    (cfg : InterfaceGenConfig) : Except ConvertError String := do
  let interfaceName := generateInterfaceName col.name cfg.pfx cfg.sfx
  let attributes ← generateAttributeDefinitions col.attributes
  let interfaceContent :=
    if cfg.includeMetadata then addMetadataFields attributes cfg.optionalMetadata
    else attributes
  pure ("\n/**\n * Represents a " ++ col.name ++
    " document in the Appwrite database\n * @interface\n */\nexport interface " ++
    interfaceName ++ " \x7b\n" ++ interfaceContent ++ "\n\x7d\n")

/-- Model of `InterfaceGenerator.generateInterfaces`: one interface per collection,
joined by newlines; a conversion error anywhere aborts the whole result. -/
def generateInterfaces (collections : List CollectionInput)
    (cfg : InterfaceGenConfig) : Except ConvertError String := do
  let parts ← collections.mapM (fun col => generateCollectionInterface col cfg)
  pure (joinSep "\n" parts)

/-! ## IDConstantsGenerator (src/generator/id-constants-generator.ts) -/

/-- A database entry of the input schema: `$id` and display name. -/
structure DbEntry where
  id : String
  name : String
deriving DecidableEq, Repr

/-- A raw collection of the input schema as the pipeline sees it before
filtering: `$id`, display name, and a possibly-absent attribute list. -/
structure RawCollection where
  id : String
  name : String
  attributes : Option (List AppwriteAttribute)
deriving DecidableEq, Repr

/-- The merged `Required<IDConstantsGenerationConfig>`.  The two generate
flags are `Option Bool` because the source reads them with `??`: after the
spread-merge with `DEFAULT_CONFIG` they are `some true` unless the caller
explicitly passed `undefined`.  `cPfx`/`cSfx` model
`constantPrefix`/`constantSuffix`. -/
structure IDConstantsCfg where
  generateDatabaseConstants : Option Bool
  generateCollectionConstants : Option Bool
  cPfx : String
  cSfx : String
  namingTransform : String → String
  includeComments : Bool

/-- Model of `IDConstantsGenerator.defaultNamingTransform`: trim, collapse runs of
whitespace to one `_`, then delete the remaining non-word characters. -/
def collapseWsAux (prevWs : Bool) : List Char → List Char
  | [] => []
  | c :: cs =>
    if isJsWs c then
      if prevWs then collapseWsAux true cs else '_' :: collapseWsAux true cs
    else c :: collapseWsAux false cs

/-- Drop trailing JavaScript whitespace (the right half of `trim`). -/
def dropTrailingWs : List Char → List Char
  | [] => []
  | c :: cs => if dropTrailingWs cs = [] ∧ isJsWs c then [] else c :: dropTrailingWs cs

/-- Model of `String.prototype.trim`. -/
def jsTrim (l : List Char) : List Char :=
  dropTrailingWs (l.dropWhile isJsWs)

/-- Model of `IDConstantsGenerator.defaultNamingTransform`. -/
def defaultNamingTransform (s : String) : String :=
  String.mk ((collapseWsAux false (jsTrim s.data)).filter isWordChar)

/-- Model of `String.prototype.replace(/^(\d)/, '_$1')`: prepend `_` when the
first character is a digit. -/
def digitGuard : List Char → List Char
  | [] => []
  | c :: cs => if isDigitChar c then '_' :: c :: cs else c :: cs

/-- Model of `IDConstantsGenerator.formatConstantName`: apply the transform,
replace non-word characters by `_`, guard a leading digit with `_`,
uppercase, and wrap in prefix/suffix. -/
def formatConstantName (name pfx sfx : String) (transform : String → String) : String :=
  let transformed := transform name
  let sanitized := digitGuard (transformed.data.map (fun c => if isWordChar c then c else '_'))
  String.mk (pfx.data ++ sanitized.map Char.toUpper ++ sfx.data)

/-- The default merged configuration of `IDConstantsGenerator`. -/
def idConstantsDefaultCfg : IDConstantsCfg :=
  ⟨some true, some true, "", "", defaultNamingTransform, true⟩

/-- Model of `IDConstantsGenerator.generateDatabaseConstants`: one table line per
database, each optionally preceded by a doc comment. -/
def generateDatabaseConstantsStr (databases : List DbEntry) (cfg : IDConstantsCfg) : String :=
  joinSep "\n" (databases.map (fun db =>
    let constantName := formatConstantName db.name cfg.cPfx cfg.cSfx cfg.namingTransform
    let comment := if cfg.includeComments then "  /** Database ID for " ++ db.name ++ " */\n" else ""
    comment ++ "  " ++ constantName ++ ": \x27" ++ db.id ++ "\x27,"))

/-- Model of `IDConstantsGenerator.generateCollectionConstants`: one table line per
collection; no deduplication of colliding constant names. -/
def generateCollectionConstantsStr (collections : List RawCollection) (cfg : IDConstantsCfg) : String :=
  joinSep "\n" (collections.map (fun collection =>
    let constantName := formatConstantName collection.name cfg.cPfx cfg.cSfx cfg.namingTransform
    let comment := if cfg.includeComments then "  /** Collection ID for " ++ collection.name ++ " */\n" else ""
    comment ++ "  " ++ constantName ++ ": \x27" ++ collection.id ++ "\x27,"))

/-- The parsed input schema: both top-level arrays may be absent. -/
structure InputSchema where
  databases : Option (List DbEntry)
  collections : Option (List RawCollection)
deriving DecidableEq, Repr

/-- Model of `IDConstantsGenerator.generateIDConstants`.  The outer template
interpolates `fullConfig.generateDatabaseConstants ?? <table template>`:
when the flag is present (the normal case, `some b`) the *boolean itself*
is interpolated, and the computed table text is discarded; only an
explicitly-`undefined` flag (`none`) reaches the table template. -/
def generateIDConstants (inputConfig : Option InputSchema) (cfg : IDConstantsCfg) :
    Except String String :=
  match inputConfig with
  | none => .error "Invalid input configuration: Must be a non-null object"
  | some ic =>
    let databaseConstants := generateDatabaseConstantsStr (ic.databases.getD []) cfg
    let collectionConstants := generateCollectionConstantsStr (ic.collections.getD []) cfg
    .ok ("\n      " ++
      (match cfg.generateDatabaseConstants with
       | some b => boolToStr b
       | none =>
         "/** Database identifiers for the project */\n      export const DATABASE_IDS = \x7b\n      " ++
           databaseConstants ++ "\n      \x7d;") ++
      "\n\n      " ++
      (match cfg.generateCollectionConstants with
       | some b => boolToStr b
       | none =>
         "/** Collection identifiers for the project */\n      export const COLLECTION_IDS = \x7b\n      " ++
           collectionConstants ++ "\n      \x7d;") ++
      "\n    ")

/-! ## GenerationPipeline (src/generator/index.ts) -/

/-- A JavaScript error as the pipeline distinguishes them:
`instanceof GeneratorError` or any other thrown error. -/
inductive JsErr where
  | generatorError (msg : String)
  | plainError (msg : String)
deriving DecidableEq, Repr

/-- Model of `TypesGenerator.handleGenerationError`: a `GeneratorError` is
rethrown unchanged, anything else is wrapped. -/
def handleGenerationError : JsErr → JsErr
  | .generatorError m => .generatorError m
  | .plainError m => .generatorError ("Unexpected error during type generation: " ++ m)

/-- Model of `String.prototype.replace(/\n{3,}/g, '\n\n')`: rewrite every maximal
run of three or more newlines to exactly two.  `pending` counts the
newlines of the run currently being scanned. -/
def emitRun (pending : Nat) : List Char :=
  if pending ≥ 3 then ['\n', '\n'] else List.replicate pending '\n'

/-- Worker for the newline-collapsing replace. -/
def collapseNlAux (pending : Nat) : List Char → List Char
  | [] => emitRun pending
  | c :: cs =>
    if c = '\n' then collapseNlAux (pending + 1) cs
    else emitRun pending ++ c :: collapseNlAux 0 cs

/-- Model of `TypesGenerator.formatGeneratedTypes`: collapse newline runs, trim,
and append exactly one final newline. -/
def formatGeneratedTypes (l : List Char) : List Char :=
  jsTrim (collapseNlAux 0 l) ++ ['\n']

/-- Model of `formatGeneratedTypes` on `String`. -/
def formatGeneratedTypesStr (s : String) : String :=
  String.mk (formatGeneratedTypes s.data)

/-- A user-supplied post-generation transformer: text plus the context
`{inputConfig, collections}`; it may throw. -/
def TypeTransformer :=
  String → InputSchema → List CollectionInput → Except JsErr String

/-- The pipeline configuration relevant to `TypesGenerator.generate`. -/
structure PipelineConfig where
  inputPath : String
  outputPath : String
  enumConfig : EnumGenConfig
  interfaceConfig : InterfaceGenConfig
  idConstantsConfig : IDConstantsCfg

/-- Model of `TypesGenerator.extractProcessableCollections`: keep only collections
with a present, non-empty attribute list. -/
def extractProcessableCollections (ic : InputSchema) :
    Except JsErr (List CollectionInput) :=
  match ic.collections with
  | none => .error (.generatorError "No collections found in input configuration")
  | some cols =>
    .ok ((cols.filter (fun c =>
      match c.attributes with
      | some (_ :: _) => true
      | _ => false)).map (fun c => ⟨c.name, c.attributes.getD []⟩))

/-- Model of `TypesGenerator.generateInitialTypes`: header, union types, enums,
interfaces, ID constants, in that order.  `now` stands for the
`new Date().toISOString()` timestamp.  Errors thrown by the inner
generators are plain JavaScript errors. -/
def generateInitialTypes (collections : List CollectionInput) (ic : InputSchema)
    (cfg : PipelineConfig) (now : String) : Except JsErr String := do
  let header := "// Auto-generated Appwrite Types\n// Generated on " ++ now ++
    "\n// WARNING: This file is auto-generated. Do not modify manually.\n\n"
  let defs := generateEnumDefinitions collections cfg.enumConfig
  let interfaces ←
    match generateInterfaces collections cfg.interfaceConfig with
    | .ok s => pure s
    | .error e => throw (JsErr.plainError (convertErrorMessage e))
  let idc ←
    match generateIDConstants (some ic) cfg.idConstantsConfig with
    | .ok s => pure s
    | .error m => throw (JsErr.plainError m)
  pure (header ++ defs.typeDefinitions ++ "\n" ++ defs.enumDefinitions ++ "\n" ++
    interfaces ++ idc ++ "\n")

/-- Model of `TypesGenerator.applyCustomTransformations`: left fold of the
transformer list over the accumulated text. -/
def applyCustomTransformations (transformers : List TypeTransformer)
    (text : String) (collections : List CollectionInput) (ic : InputSchema) :
    Except JsErr String :=
  transformers.foldlM (fun t f => f t ic collections) text

/-- The body of `TypesGenerator.generate` before its `catch`:
validation, load, extraction, generation, transformation, finalize.
`loadResult` stands for the outcome of reading and JSON-parsing the
input file (the external collaborator). -/
def generateBody (cfg : PipelineConfig) (loadResult : Except String InputSchema)
    (transformers : List TypeTransformer) (now : String) : Except JsErr String := do
  if cfg.inputPath = "" then
    throw (JsErr.generatorError "Input path is required for type generation")
  else if cfg.outputPath = "" then
    throw (JsErr.generatorError "Output path is required for type generation")
  else
    let ic ←
      match loadResult with
      | .error m =>
        throw (JsErr.generatorError ("Failed to read or parse input configuration: " ++ m))
      | .ok ic => pure ic
    let collections ← extractProcessableCollections ic
    let t ← generateInitialTypes collections ic cfg now
    let t ← applyCustomTransformations transformers t collections ic
    pure (formatGeneratedTypesStr t)

/-- Model of `TypesGenerator.generate`: the body inside `try`, with every escaping
error routed through `handleGenerationError`. -/
def generate (cfg : PipelineConfig) (loadResult : Except String InputSchema)
    (transformers : List TypeTransformer) (now : String) : Except JsErr String :=
  match generateBody cfg loadResult transformers now with
  | .ok s => .ok s
  | .error e => .error (handleGenerationError e)

/-! ## Predicates used to state the finalize and naming properties -/

/-- Does the text contain three consecutive newlines (two consecutive
blank lines) anywhere? -/
def hasTriple : List Char → Bool
  | a :: b :: c :: rest => (a = '\n' && b = '\n' && c = '\n') || hasTriple (b :: c :: rest)
  | _ => false

/-- The first character, if any, is not JavaScript whitespace. -/
def headNotWs : List Char → Bool
  | [] => true
  | c :: _ => !isJsWs c

/-- The last character, if any, is not JavaScript whitespace. -/
def lastNotWs : List Char → Bool
  | [] => true
  | [c] => !isJsWs c
  | _ :: c :: cs => lastNotWs (c :: cs)

/-- Does the text start with an ASCII digit? -/
def headIsDigit : List Char → Bool
  | [] => false
  | c :: _ => isDigitChar c

/-- The related-collection name as the amended claim C8 words it: split
on `-`/`_`, capitalize each segment and concatenate, and then strip one
trailing lowercase `s` from the concatenation. -/
def relatedTypeNameAmended (rc : String) : String :=
  String.mk (stripTrailingLowerS (pascalConcat (splitDashUnderscore rc.data)))

/-! ## Concrete inputs used by the claim theorems -/

/-- The schema of claim C1: one database `{id: "db1", name: "Main DB"}`. -/
def mainDbSchema : InputSchema := ⟨some [⟨"db1", "Main DB"⟩], some []⟩

/-- A pipeline configuration holding only defaults. -/
def pipeCfgDefault : PipelineConfig :=
  ⟨"appwrite.json", "types.ts", defaultEnumCfg, defaultInterfaceCfg, idConstantsDefaultCfg⟩

/-- The `Users.role` enum attribute of claim C2. -/
def roleAttr : AppwriteAttribute :=
  ⟨"role", "string", true, false, none, some ["admin", "member"], some "enum",
   none, none, none, none, none, none⟩

/-- The `Users` collection of claim C2. -/
def usersCollection : CollectionInput := ⟨"Users", [roleAttr]⟩

/-- The enum section generated for the `Users` collection. -/
def c2EnumText : String :=
  (generateEnumDefinitions [usersCollection] defaultEnumCfg).enumDefinitions

/-- The interface section generated for the `Users` collection. -/
def c2IfaceText : String :=
  (generateInterfaces [usersCollection] defaultInterfaceCfg).toOption.getD ""

/-- A well-formed relationship attribute whose type is outside the
primitive table. -/
def relAttrOwner : AppwriteAttribute :=
  ⟨"owner", "relationship", true, false, none, none, none, some "users",
   some "oneToMany", some false, none, some "parent", some "cascade"⟩

/-- A relationship attribute that also carries `format: "enum"` with a
non-empty element list. -/
def relEnumAttr : AppwriteAttribute :=
  ⟨"tag", "relationship", true, false, none, some ["a", "b"], some "enum",
   some "things", some "oneToMany", some false, none, some "parent", some "cascade"⟩

/-- A relationship attribute whose related collection ends in a separated
single `s` segment, separating the two strip-versus-split orders. -/
def relAttrUserS : AppwriteAttribute :=
  ⟨"rel", "relationship", true, false, none, none, none, some "user-s",
   some "oneToMany", some false, none, some "parent", some "cascade"⟩

/-- An enum attribute whose type string is empty. -/
def enumEmptyTypeAttr : AppwriteAttribute :=
  ⟨"k", "", true, false, none, some ["x"], some "enum",
   none, none, none, none, none, none⟩

/-- An enum attribute whose type string is outside the primitive table. -/
def c10Attr : AppwriteAttribute :=
  ⟨"contact", "email", false, true, none, some ["a", "b"], some "enum",
   none, none, none, none, none, none⟩

/-- Two collections whose display names sanitize to the same constant key. -/
def dupCols : List RawCollection := [⟨"id1", "My Col", none⟩, ⟨"id2", "My Col", none⟩]

/-- Collection `User` with an enum attribute `role` valued `["a"]`. -/
def colUserA : CollectionInput :=
  ⟨"User", [⟨"role", "string", true, false, none, some ["a"], some "enum",
    none, none, none, none, none, none⟩]⟩

/-- Collection `Users` with an enum attribute `role` valued `["b", "c"]`;
its qualified enum name collides with the one of `colUserA`. -/
def colUsersB : CollectionInput :=
  ⟨"Users", [⟨"role", "string", true, false, none, some ["b", "c"], some "enum",
    none, none, none, none, none, none⟩]⟩

/-- A schema with no databases and no processable collections. -/
def emptySchema : InputSchema := ⟨none, some []⟩

/-- A transformer that throws a plain (non-GeneratorError) error. -/
def boomTransformer : TypeTransformer := fun _ _ _ => .error (.plainError "boom")

/-! ## Helper lemmas: substring tests -/

theorem strData_append (a b : String) : (a ++ b).data = a.data ++ b.data := rfl

theorem startsWithSub_self_append (p r : List Char) : startsWithSub p (p ++ r) = true := by
  induction p with
  | nil => rfl
  | cons c cs ih => simp [startsWithSub, ih]

theorem containsSub_cons (pat : List Char) (c : Char) (l : List Char) :
    containsSub pat (c :: l) = (startsWithSub pat (c :: l) || containsSub pat l) := rfl

theorem containsSub_append_left (pat x y : List Char) (h : containsSub pat y = true) :
    containsSub pat (x ++ y) = true := by
  induction x with
  | nil => simpa using h
  | cons c cs ih => simp [containsSub_cons, ih]

theorem containsSub_self_append (p r : List Char) : containsSub p (p ++ r) = true := by
  cases p with
  | nil =>
    induction r with
    | nil => rfl
    | cons c cs ih => simp [containsSub_cons]; exact Or.inl rfl
  | cons c cs =>
    have hs := startsWithSub_self_append (c :: cs) r
    simp only [List.cons_append] at hs
    simp [containsSub_cons, hs]

theorem containsSub_middle (pat pre suf : List Char) :
    containsSub pat (pre ++ (pat ++ suf)) = true :=
  containsSub_append_left pat pre _ (containsSub_self_append pat suf)

/-! ## Helper lemmas: the newline-collapsing finalize step -/

theorem ne_nl_of_not_ws {c : Char} (h : isJsWs c = false) : c ≠ '\n' := by
  intro hc
  subst hc
  simp [isJsWs] at h

theorem hasTriple_cons3 (a b c : Char) (rest : List Char) :
    hasTriple (a :: b :: c :: rest) =
      ((a = '\n' && b = '\n' && c = '\n') || hasTriple (b :: c :: rest)) := rfl

theorem hasTriple_tail (c : Char) (l : List Char) (h : hasTriple (c :: l) = false) :
    hasTriple l = false := by
  match l with
  | [] => rfl
  | [a] => rfl
  | a :: b :: rest =>
    rw [hasTriple_cons3] at h
    exact (Bool.or_eq_false_iff.mp h).2

theorem hasTriple_cons_ne (c : Char) (l : List Char) (h : c ≠ '\n') :
    hasTriple (c :: l) = hasTriple l := by
  match l with
  | [] => rfl
  | [a] => rfl
  | a :: b :: rest => simp [hasTriple_cons3, h]

theorem hasTriple_true_append (x y : List Char) (h : hasTriple x = true) :
    hasTriple (x ++ y) = true := by
  induction x with
  | nil => simp [hasTriple] at h
  | cons c cs ih =>
    match cs, ih with
    | [], _ => simp [hasTriple] at h
    | [a], _ => simp [hasTriple] at h
    | a :: b :: rest, ih =>
      rw [hasTriple_cons3] at h
      show hasTriple (c :: a :: b :: (rest ++ y)) = true
      rw [hasTriple_cons3]
      rcases Bool.or_eq_true_iff.mp h with h1 | h2
      · simp [h1]
      · have := ih h2
        simp only [List.cons_append] at this
        simp [this]

theorem hasTriple_prefix_false (x y : List Char) (h : hasTriple (x ++ y) = false) :
    hasTriple x = false := by
  cases hx : hasTriple x with
  | false => rfl
  | true => rw [hasTriple_true_append x y hx] at h; exact h.symm ▸ rfl

theorem hasTriple_dropWhile (p : Char → Bool) (l : List Char) (h : hasTriple l = false) :
    hasTriple (l.dropWhile p) = false := by
  induction l with
  | nil => rfl
  | cons c cs ih =>
    rw [List.dropWhile_cons]
    split
    · exact ih (hasTriple_tail c cs h)
    · exact h

theorem dropTrailingWs_decomp (l : List Char) : ∃ w, l = dropTrailingWs l ++ w := by
  induction l with
  | nil => exact ⟨[], rfl⟩
  | cons c cs ih =>
    unfold dropTrailingWs
    split
    · exact ⟨c :: cs, rfl⟩
    · obtain ⟨w, hw⟩ := ih
      exact ⟨w, by rw [List.cons_append, ← hw]⟩

theorem hasTriple_dropTrailing (l : List Char) (h : hasTriple l = false) :
    hasTriple (dropTrailingWs l) = false := by
  obtain ⟨w, hw⟩ := dropTrailingWs_decomp l
  exact hasTriple_prefix_false _ w (hw ▸ h)

theorem lastNotWs_cons_cons (x y : Char) (zs : List Char) :
    lastNotWs (x :: y :: zs) = lastNotWs (y :: zs) := rfl

theorem lastNotWs_dropTrailing (l : List Char) : lastNotWs (dropTrailingWs l) = true := by
  induction l with
  | nil => rfl
  | cons c cs ih =>
    unfold dropTrailingWs
    split
    · rfl
    · rename_i hcond
      cases hr : dropTrailingWs cs with
      | nil =>
        have hwc : isJsWs c = false := by
          cases hwc : isJsWs c with
          | false => rfl
          | true => exact absurd ⟨hr, hwc⟩ hcond
        simp [lastNotWs, hwc]
      | cons d ds =>
        rw [hr] at ih
        rw [lastNotWs_cons_cons]
        exact ih

theorem headNotWs_dropWhileWs (l : List Char) :
    headNotWs (l.dropWhile isJsWs) = true := by
  induction l with
  | nil => rfl
  | cons c cs ih =>
    rw [List.dropWhile_cons]
    split
    · exact ih
    · rename_i hc
      simp [headNotWs]
      simpa using hc

theorem headNotWs_dropTrailing (l : List Char) (h : headNotWs l = true) :
    headNotWs (dropTrailingWs l) = true := by
  cases l with
  | nil => rfl
  | cons c cs =>
    unfold dropTrailingWs
    split
    · rfl
    · exact h

theorem hasTriple_emitRun (k : Nat) : hasTriple (emitRun k) = false := by
  unfold emitRun
  split
  · rfl
  · rename_i hk
    match k, hk with
    | 0, _ => rfl
    | 1, _ => rfl
    | 2, _ => rfl
    | n + 3, hk => exact absurd (by omega) hk

theorem hasTriple_nl_cons (c : Char) (r : List Char) (hc : c ≠ '\n')
    (h : hasTriple (c :: r) = false) : hasTriple ('\n' :: c :: r) = false := by
  match r with
  | [] => rfl
  | d :: ds =>
    rw [hasTriple_cons3]
    simp [hc, h]

theorem hasTriple_2nl_cons (c : Char) (r : List Char) (hc : c ≠ '\n')
    (h : hasTriple (c :: r) = false) : hasTriple ('\n' :: '\n' :: c :: r) = false := by
  rw [hasTriple_cons3]
  simp [hc, hasTriple_nl_cons c r hc h]

theorem hasTriple_emitRun_cons (k : Nat) (c : Char) (r : List Char) (hc : c ≠ '\n')
    (h : hasTriple (c :: r) = false) : hasTriple (emitRun k ++ c :: r) = false := by
  unfold emitRun
  split
  · exact hasTriple_2nl_cons c r hc h
  · rename_i hk
    match k, hk with
    | 0, _ => exact h
    | 1, _ => exact hasTriple_nl_cons c r hc h
    | 2, _ => exact hasTriple_2nl_cons c r hc h
    | n + 3, hk => exact absurd (by omega) hk

theorem collapseNlAux_hasTriple (l : List Char) : ∀ k, hasTriple (collapseNlAux k l) = false := by
  induction l with
  | nil => intro k; exact hasTriple_emitRun k
  | cons c cs ih =>
    intro k
    unfold collapseNlAux
    split
    · exact ih (k + 1)
    · rename_i hc
      refine hasTriple_emitRun_cons k c _ hc ?_
      rw [hasTriple_cons_ne c _ hc]
      exact ih 0

theorem hasTriple_append_one_nl (t : List Char) (h : hasTriple t = false)
    (hl : lastNotWs t = true) : hasTriple (t ++ ['\n']) = false := by
  induction t with
  | nil => rfl
  | cons c cs ih =>
    cases cs with
    | nil => rfl
    | cons d ds =>
      cases ds with
      | nil =>
        have hd : isJsWs d = false := by simpa [lastNotWs] using hl
        have hdn : d ≠ '\n' := ne_nl_of_not_ws hd
        show hasTriple [c, d, '\n'] = false
        rw [hasTriple_cons3]
        simp [hdn, hasTriple]
      | cons e es =>
        rw [hasTriple_cons3] at h
        obtain ⟨h1, h2⟩ := Bool.or_eq_false_iff.mp h
        have := ih h2 (by rw [← lastNotWs_cons_cons c d (e :: es)]; exact hl)
        show hasTriple (c :: d :: e :: (es ++ ['\n'])) = false
        rw [hasTriple_cons3]
        simp only [List.cons_append] at this
        simp [h1, this]

/-! ## Helper lemmas: character classes under uppercasing -/

theorem wordChars_toUpper_upperWord :
    wordChars.all (fun c => isUpperWordChar (Char.toUpper c)) = true := by decide

theorem wordChars_toUpper_digit :
    wordChars.all (fun c => isDigitChar (Char.toUpper c) == isDigitChar c) = true := by decide

theorem mem_wordChars_of_isWordChar {c : Char} (h : isWordChar c = true) : c ∈ wordChars := by
  unfold isWordChar at h
  exact List.mem_of_elem_eq_true h

theorem isUpperWordChar_toUpper {c : Char} (h : isWordChar c = true) :
    isUpperWordChar (Char.toUpper c) = true :=
  List.all_eq_true.mp wordChars_toUpper_upperWord c (mem_wordChars_of_isWordChar h)

theorem isDigitChar_toUpper {c : Char} (h : isWordChar c = true) :
    isDigitChar (Char.toUpper c) = isDigitChar c :=
  eq_of_beq (List.all_eq_true.mp wordChars_toUpper_digit c (mem_wordChars_of_isWordChar h))

theorem sanitizeMap_all_word (l : List Char) :
    (l.map (fun c => if isWordChar c then c else '_')).all isWordChar = true := by
  induction l with
  | nil => rfl
  | cons c cs ih =>
    simp only [List.map_cons, List.all_cons, Bool.and_eq_true]
    refine ⟨?_, ih⟩
    split
    · assumption
    · decide

theorem map_toUpper_all_upperWord (l : List Char) (h : l.all isWordChar = true) :
    (l.map Char.toUpper).all isUpperWordChar = true := by
  induction l with
  | nil => rfl
  | cons c cs ih =>
    simp only [List.all_cons, Bool.and_eq_true] at h
    simp only [List.map_cons, List.all_cons, Bool.and_eq_true]
    exact ⟨isUpperWordChar_toUpper h.1, ih h.2⟩

/-! ## Claim theorems -/

/-- C1.  For the schema containing database `{id: "db1", name: "Main DB"}`
under the default configuration, the intended table line
`MAIN_DB: 'db1'` is computed by `generateDatabaseConstants`, but the
outer template of `generateIDConstants` interpolates
`generateDatabaseConstants ?? ...` on a flag that is `true` by default,
so the emitted constants section is the literal text `true` and the
pipeline output never contains `MAIN_DB`.  The claim describes the
intended behaviour; the code drops the computed table. -/
theorem c1_database_constant_swallowed :
    generateIDConstants (some mainDbSchema) idConstantsDefaultCfg =
      .ok "\n      true\n\n      true\n    " ∧
    generateDatabaseConstantsStr [⟨"db1", "Main DB"⟩] idConstantsDefaultCfg =
      "  /** Database ID for Main DB */\n  MAIN_DB: \x27db1\x27," ∧
    (generate pipeCfgDefault (.ok mainDbSchema) [] "2024-01-01T00:00:00.000Z").isOk = true ∧
    containsSub "MAIN_DB".data
      ((generate pipeCfgDefault (.ok mainDbSchema) [] "2024-01-01T00:00:00.000Z").toOption.getD "").data
      = false :=
  ⟨rfl, rfl, rfl, rfl⟩

/-- C2 counterexample.  With enum generation enabled (the default), the
collection `Users` with the enum attribute `role` yields an enum named
`UserRole` (the collection name is singularized first), not `UsersRole`
as the claim states: the emitted enum section contains no occurrence of
`UsersRole`. -/
theorem c2_counterexample :
    containsSub "UsersRole".data c2EnumText.data = false ∧
    containsSub "export enum UserRole".data c2EnumText.data = true :=
  ⟨rfl, rfl⟩

/-- C2 amended.  For the collection `Users` with attribute
`{key: "role", type: "string", format: "enum",
enumValues: ["admin", "member"], required: true}`, the generated
interface contains the field `role: "admin" | "member";` with no
optionality marker, and with enum generation enabled the enum section
declares an enum named `UserRole` with members `ADMIN = "admin"` and
`MEMBER = "member"`. -/
theorem c2_amended :
    (generateInterfaces [usersCollection] defaultInterfaceCfg).isOk = true ∧
    containsSub "  role: \"admin\" | \"member\";".data c2IfaceText.data = true ∧
    containsSub "role?".data c2IfaceText.data = false ∧
    containsSub "export enum UserRole".data c2EnumText.data = true ∧
    containsSub "ADMIN = \"admin\"".data c2EnumText.data = true ∧
    containsSub "MEMBER = \"member\"".data c2EnumText.data = true :=
  ⟨rfl, rfl, rfl, rfl, rfl, rfl⟩

/-- C3 counterexample.  The type string `relationship` is not one of the
five entries of the primitive table, yet `convert` succeeds on a
relationship attribute instead of failing with an unsupported-type
error: the enum and relationship branches run before the table lookup. -/
theorem c3_counterexample :
    primLookup "relationship" = none ∧
    convertToTSType relAttrOwner none = .ok "User[]" :=
  ⟨rfl, rfl⟩

/-- C6 counterexample.  Two collections named `My Col` (ids `id1`, `id2`)
derive the same sanitized constant key `MY_COL`, yet the emitted
collection-constants table still contains the earlier entry
`MY_COL: 'id1',` — the earlier entry is not absent from the output. -/
theorem c6_counterexample :
    formatConstantName "My Col" "" "" defaultNamingTransform = "MY_COL" ∧
    containsSub "MY_COL: \x27id1\x27,".data
      (generateCollectionConstantsStr dupCols idConstantsDefaultCfg).data = true :=
  ⟨rfl, rfl⟩

/-- C6 amended.  When two enum attributes derive the same qualified type
name, the extracted enum map keeps only the later entry's values under
that name (the earlier values are silently dropped); but when two
collections derive the same sanitized constant key, the emitted constant
table text contains both entries — the later one wins only through the
consuming language's duplicate-key semantics, not by omission from the
output. -/
theorem c6_amended :
    extractEnumTypes [colUserA, colUsersB] = [("UserRole", ["b", "c"])] ∧
    generateTypeName "User" "role" = generateTypeName "Users" "role" ∧
    generateCollectionConstantsStr dupCols idConstantsDefaultCfg =
      "  /** Collection ID for My Col */\n  MY_COL: \x27id1\x27,\n  /** Collection ID for My Col */\n  MY_COL: \x27id2\x27," :=
  ⟨rfl, rfl, rfl⟩

/-- C4 counterexample.  A relationship attribute that also carries
`format: "enum"` with elements `["a", "b"]` (cardinality `oneToMany`,
side `parent`, related collection `things`) converts to the literal
union `"a" | "b"`, which is none of the six documented relationship
shapes — in particular not the array shape the claim assigns to
`oneToMany`+`parent`. -/
theorem c4_counterexample :
    convertToTSType relEnumAttr none = .ok "\"a\" | \"b\"" ∧
    "\"a\" | \"b\"" ≠ relatedTypeName "things" ++ "[]" ∧
    "\"a\" | \"b\"" ≠ relatedTypeName "things" ++ " | null" ∧
    "\"a\" | \"b\"" ≠ "string | RelationshipReference" :=
  ⟨rfl, by decide, by decide, by decide⟩

/-- C8 counterexample.  For related collection `user-s` the code computes
`UserS` (split and capitalize first, then strip a trailing *lowercase*
`s`), while the claim's strip-first derivation yields `User`: the
converted expression is `UserS[]`, not `User[]`. -/
theorem c8_counterexample :
    convertToTSType relAttrUserS none = .ok ("UserS" ++ "[]") ∧
    relatedTypeNameSpecOrder "user-s" = "User" ∧
    ("UserS" ++ "[]" : String) ≠ relatedTypeNameSpecOrder "user-s" ++ "[]" :=
  ⟨rfl, rfl, by decide⟩

/-- C10 counterexample.  An enum attribute with a non-empty element list
and valid key but an *empty* type string fails validation (`convert`
throws the invalid-type error) even though its type string is neither in
the primitive table nor `relationship`, so `convert` does not succeed on
every such attribute as the claim states. -/
theorem c10_counterexample :
    convertToTSType enumEmptyTypeAttr none =
      .error (.invalidAttribute "Attribute must have a valid string type") ∧
    primLookup "" = none ∧ ("" : String) ≠ "relationship" :=
  ⟨rfl, rfl, by decide⟩

/-! ## Reduction lemma for the relationship branch of the converter -/

theorem convert_reduce_rel (a : AppwriteAttribute) (ctx : Option ConvertContext) (rc : String)
    (hkey : a.key ≠ "") (htype : a.type = "relationship")
    (henum : ¬(a.format = some "enum" ∧ elementsNonempty a = true))
    (hrc : a.relatedCollection = some rc) :
    convertToTSType a ctx =
      (if a.relationType = some "oneToMany" then
        .ok (if a.side = some "parent" then relatedTypeName rc ++ "[]"
             else relatedTypeName rc ++ " | null")
      else if a.relationType = some "manyToOne" then
        .ok (if a.side = some "parent" then relatedTypeName rc ++ " | null"
             else relatedTypeName rc ++ "[]")
      else if a.relationType = some "oneToOne" ∨ a.relationType = some "manyToMany" then
        .ok (relatedTypeName rc ++ "[]")
      else .ok "string | RelationshipReference") := by
  have htype' : a.type ≠ "" := by rw [htype]; decide
  unfold convertToTSType
  rw [if_neg hkey, if_neg htype', if_neg henum, if_pos htype, hrc]

/-- C4 amended.  For every relationship attribute with a non-empty key
and a present related collection that is not an enum-format attribute
with values, the converted expression is exactly one of the six
documented shapes: `oneToMany`+parent, `manyToOne`+non-parent,
`oneToOne` and `manyToMany` give an array of the related type;
`oneToMany`+non-parent and `manyToOne`+parent give a nullable single
related type; any other or unknown cardinality gives the generic
reference fallback without an error. -/
theorem c4_amended :
    ∀ (a : AppwriteAttribute) (ctx : Option ConvertContext) (rc : String),
      a.key ≠ "" →
      a.type = "relationship" →
      ¬(a.format = some "enum" ∧ elementsNonempty a = true) →
      a.relatedCollection = some rc →
      ((a.relationType = some "oneToMany" → a.side = some "parent" →
          convertToTSType a ctx = .ok (relatedTypeName rc ++ "[]")) ∧
       (a.relationType = some "oneToMany" → a.side ≠ some "parent" →
          convertToTSType a ctx = .ok (relatedTypeName rc ++ " | null")) ∧
       (a.relationType = some "manyToOne" → a.side = some "parent" →
          convertToTSType a ctx = .ok (relatedTypeName rc ++ " | null")) ∧
       (a.relationType = some "manyToOne" → a.side ≠ some "parent" →
          convertToTSType a ctx = .ok (relatedTypeName rc ++ "[]")) ∧
       ((a.relationType = some "oneToOne" ∨ a.relationType = some "manyToMany") →
          convertToTSType a ctx = .ok (relatedTypeName rc ++ "[]")) ∧
       (a.relationType ≠ some "oneToMany" → a.relationType ≠ some "manyToOne" →
        a.relationType ≠ some "oneToOne" → a.relationType ≠ some "manyToMany" →
          convertToTSType a ctx = .ok "string | RelationshipReference")) := by
  intro a ctx rc hkey htype henum hrc
  have hred := convert_reduce_rel a ctx rc hkey htype henum hrc
  refine ⟨?_, ?_, ?_, ?_, ?_, ?_⟩
  · intro h1 h2; rw [hred, if_pos h1, if_pos h2]
  · intro h1 h2; rw [hred, if_pos h1, if_neg h2]
  · intro h1 h2
    have h1' : a.relationType ≠ some "oneToMany" := by rw [h1]; decide
    rw [hred, if_neg h1', if_pos h1, if_pos h2]
  · intro h1 h2
    have h1' : a.relationType ≠ some "oneToMany" := by rw [h1]; decide
    rw [hred, if_neg h1', if_pos h1, if_neg h2]
  · intro h
    have h1 : a.relationType ≠ some "oneToMany" := by
      rcases h with h | h <;> rw [h] <;> decide
    have h2 : a.relationType ≠ some "manyToOne" := by
      rcases h with h | h <;> rw [h] <;> decide
    rw [hred, if_neg h1, if_neg h2, if_pos h]
  · intro h1 h2 h3 h4
    rw [hred, if_neg h1, if_neg h2, if_neg (not_or.mpr ⟨h3, h4⟩)]

/-- C4 amended, witness: a `manyToOne`+parent relationship to
`team_members` converts to the nullable single type. -/
theorem c4_amended_witness :
    convertToTSType ⟨"team", "relationship", true, false, none, none, none, some "team_members",
        some "manyToOne", some false, none, some "parent", some "cascade"⟩ none =
      .ok (relatedTypeName "team_members" ++ " | null") := by
  have h := c4_amended ⟨"team", "relationship", true, false, none, none, none, some "team_members",
    some "manyToOne", some false, none, some "parent", some "cascade"⟩ none "team_members"
    (by decide) rfl (by decide) rfl
  exact h.2.2.1 rfl rfl

/-- The amended-claim name derivation coincides with the converter's. -/
theorem relatedTypeNameAmended_eq (rc : String) :
    relatedTypeNameAmended rc = relatedTypeName rc := rfl

/-- C8 amended.  For every such relationship attribute the nominal
related type name used in the converted expression is obtained by
splitting `relatedCollection` on `-`/`_`, capitalizing the first letter
of each segment and concatenating, and *then* stripping one trailing
lowercase `s` from the concatenation (not by stripping first). -/
theorem c8_amended :
    ∀ (a : AppwriteAttribute) (ctx : Option ConvertContext) (rc : String),
      a.key ≠ "" →
      a.type = "relationship" →
      ¬(a.format = some "enum" ∧ elementsNonempty a = true) →
      a.relatedCollection = some rc →
      ∃ e, convertToTSType a ctx = .ok e ∧
        (e = relatedTypeNameAmended rc ++ "[]" ∨
         e = relatedTypeNameAmended rc ++ " | null" ∨
         e = "string | RelationshipReference") := by
  intro a ctx rc hkey htype henum hrc
  have hred := convert_reduce_rel a ctx rc hkey htype henum hrc
  simp only [relatedTypeNameAmended_eq]
  by_cases h1 : a.relationType = some "oneToMany"
  · by_cases h2 : a.side = some "parent"
    · exact ⟨_, by rw [hred, if_pos h1, if_pos h2], Or.inl rfl⟩
    · exact ⟨_, by rw [hred, if_pos h1, if_neg h2], Or.inr (Or.inl rfl)⟩
  · by_cases h2 : a.relationType = some "manyToOne"
    · by_cases h3 : a.side = some "parent"
      · exact ⟨_, by rw [hred, if_neg h1, if_pos h2, if_pos h3], Or.inr (Or.inl rfl)⟩
      · exact ⟨_, by rw [hred, if_neg h1, if_pos h2, if_neg h3], Or.inl rfl⟩
    · by_cases h3 : a.relationType = some "oneToOne" ∨ a.relationType = some "manyToMany"
      · exact ⟨_, by rw [hred, if_neg h1, if_neg h2, if_pos h3], Or.inl rfl⟩
      · exact ⟨_, by rw [hred, if_neg h1, if_neg h2, if_neg h3], Or.inr (Or.inr rfl)⟩

/-- C8 amended, witness: a `oneToMany`+child relationship to
`blog-posts` converts to a shape built from the pascal-then-strip name. -/
theorem c8_amended_witness :
    ∃ e, convertToTSType ⟨"posts", "relationship", false, false, none, none, none,
        some "blog-posts", some "oneToMany", some false, none, some "child", some "cascade"⟩
        none = .ok e ∧
      (e = relatedTypeNameAmended "blog-posts" ++ "[]" ∨
       e = relatedTypeNameAmended "blog-posts" ++ " | null" ∨
       e = "string | RelationshipReference") :=
  c8_amended _ none "blog-posts" (by decide) rfl (by decide) rfl

/-- C10 amended.  For every attribute with a valid non-empty key *and a
non-empty type string*, `format == "enum"` and a non-empty element list,
`convert` succeeds with the literal-union expression (array-wrapped when
the attribute is an array) regardless of whether the type is in the
primitive table or is `relationship`, and never raises an
unsupported-type error: the enum branch precedes the table lookup. -/
theorem c10_amended :
    ∀ (a : AppwriteAttribute) (ctx : Option ConvertContext),
      a.key ≠ "" → a.type ≠ "" →
      a.format = some "enum" → elementsNonempty a = true →
      convertToTSType a ctx = .ok (handleEnumType a) ∧
      ∀ t errCtx, convertToTSType a ctx ≠ .error (.unsupportedType t errCtx) := by
  intro a ctx hk ht hf he
  have hred : convertToTSType a ctx = .ok (handleEnumType a) := by
    unfold convertToTSType
    rw [if_neg hk, if_neg ht, if_pos ⟨hf, he⟩]
  refine ⟨hred, ?_⟩
  intro t errCtx h
  rw [hred] at h
  cases h

/-- C10 amended, witness: an enum attribute of type `email` (outside the
primitive table) converts to the array-wrapped literal union. -/
theorem c10_amended_witness :
    convertToTSType c10Attr none = .ok (handleEnumType c10Attr) ∧
    ∀ t errCtx, convertToTSType c10Attr none ≠ .error (.unsupportedType t errCtx) :=
  c10_amended c10Attr none (by decide) (by decide) rfl rfl

/-! ## Remaining helper lemmas for C9 -/

theorem digitGuard_cons (c : Char) (cs : List Char) :
    digitGuard (c :: cs) = if isDigitChar c = true then '_' :: c :: cs else c :: cs := rfl

theorem digitGuard_all_word (l : List Char) (h : l.all isWordChar = true) :
    (digitGuard l).all isWordChar = true := by
  cases l with
  | nil => rfl
  | cons c cs =>
    rw [digitGuard_cons]
    split
    · simp only [List.all_cons, Bool.and_eq_true] at h ⊢
      exact ⟨by decide, h⟩
    · exact h

theorem headIsDigit_digitGuard_toUpper (l : List Char) (h : l.all isWordChar = true) :
    headIsDigit ((digitGuard l).map Char.toUpper) = false := by
  cases l with
  | nil => rfl
  | cons c cs =>
    have hword : isWordChar c = true := by
      simp only [List.all_cons, Bool.and_eq_true] at h
      exact h.1
    rw [digitGuard_cons]
    split
    · simp only [List.map_cons]
      show isDigitChar (Char.toUpper '_') = false
      decide
    · rename_i hdig
      simp only [List.map_cons]
      show isDigitChar (Char.toUpper c) = false
      rw [isDigitChar_toUpper hword]
      cases hb : isDigitChar c with
      | false => rfl
      | true => exact absurd hb hdig

/-- C3 amended.  For every attribute with a non-empty key and a
non-empty type string that is not enum-formatted with values, not
`relationship`, and not in the five-entry primitive table, `convert`
fails with the unsupported-type error whose message names the type; and
for every attribute with a non-empty key whose type is in the table,
`convert` succeeds. -/
theorem c3_amended :
    (∀ (a : AppwriteAttribute) (ctx : Option ConvertContext),
      a.key ≠ "" → a.type ≠ "" →
      ¬(a.format = some "enum" ∧ elementsNonempty a = true) →
      a.type ≠ "relationship" →
      primLookup a.type = none →
      convertToTSType a ctx = .error (.unsupportedType a.type (errorContextStr ctx)) ∧
      containsSub a.type.data
        (convertErrorMessage (.unsupportedType a.type (errorContextStr ctx))).data = true) ∧
    (∀ (a : AppwriteAttribute) (ctx : Option ConvertContext),
      a.key ≠ "" → primLookup a.type ≠ none →
      ∃ s, convertToTSType a ctx = .ok s) := by
  constructor
  · intro a ctx hk ht he hr hp
    constructor
    · unfold convertToTSType
      rw [if_neg hk, if_neg ht, if_neg he, if_neg hr, hp]
    · have hmsg : (convertErrorMessage (.unsupportedType a.type (errorContextStr ctx))).data =
          "Unsupported attribute type: ".data ++
            (a.type.data ++ (" ".data ++ (errorContextStr ctx).data)) := by
        simp [convertErrorMessage, strData_append, List.append_assoc]
      rw [hmsg]
      exact containsSub_middle _ _ _
  · intro a ctx hk hp
    have ht : a.type ≠ "" := by
      intro h
      rw [h] at hp
      exact hp rfl
    by_cases he : a.format = some "enum" ∧ elementsNonempty a = true
    · exact ⟨handleEnumType a, by unfold convertToTSType; rw [if_neg hk, if_neg ht, if_pos he]⟩
    · have hr : a.type ≠ "relationship" := by
        intro h
        rw [h] at hp
        exact hp rfl
      obtain ⟨base, hb⟩ := Option.ne_none_iff_exists'.mp hp
      refine ⟨if a.array then handleArrayType a base else base, ?_⟩
      unfold convertToTSType
      rw [if_neg hk, if_neg ht, if_neg he, if_neg hr, hb]

/-- C3 amended, witness: type `widget` fails with the unsupported-type
error naming it; type `integer` succeeds. -/
theorem c3_amended_witness :
    (convertToTSType ⟨"k", "widget", true, false, none, none, none,
          none, none, none, none, none, none⟩ none =
        .error (.unsupportedType "widget" (errorContextStr none)) ∧
      containsSub "widget".data
        (convertErrorMessage (.unsupportedType "widget" (errorContextStr none))).data = true) ∧
    (∃ s, convertToTSType ⟨"n", "integer", true, false, none, none, none,
          none, none, none, none, none, none⟩ none = .ok s) :=
  ⟨c3_amended.1 _ none (by decide) (by decide) (by decide) (by decide) rfl,
   c3_amended.2 _ none (by decide) (by decide)⟩

/-- C5 counterexample.  A user-supplied transformer that throws a plain
error `boom` during the Transform stage does *not* propagate unwrapped:
`generate`'s catch-all wraps it into the domain error with the standard
prefix. -/
theorem c5_counterexample :
    generate pipeCfgDefault (.ok emptySchema) [boomTransformer] "T" =
      .error (.generatorError "Unexpected error during type generation: boom") ∧
    generate pipeCfgDefault (.ok emptySchema) [boomTransformer] "T" ≠
      .error (.plainError "boom") := by
  refine ⟨rfl, ?_⟩
  intro h
  have hg : generate pipeCfgDefault (.ok emptySchema) [boomTransformer] "T" =
      .error (.generatorError "Unexpected error during type generation: boom") := rfl
  rw [hg] at h
  injection h with h'
  exact absurd h' (by decide)

/-- C5 amended.  Every error surfacing from `generate` — whether raised
in Load, Generate, or Transform — is the single domain error type
(`GeneratorError`): load errors carry the original cause's message
behind the read-failure prefix, and a transformer's plain error is
wrapped with the standard unexpected-error prefix rather than
propagating as thrown. -/
theorem c5_amended :
    (∀ (cfg : PipelineConfig) (loadResult : Except String InputSchema)
        (tfs : List TypeTransformer) (now : String) (e : JsErr),
      generate cfg loadResult tfs now = .error e → ∃ m, e = .generatorError m) ∧
    (∀ (cfg : PipelineConfig) (tfs : List TypeTransformer) (now m : String),
      cfg.inputPath ≠ "" → cfg.outputPath ≠ "" →
      generate cfg (.error m) tfs now =
        .error (.generatorError ("Failed to read or parse input configuration: " ++ m))) ∧
    generate pipeCfgDefault (.ok emptySchema) [boomTransformer] "T" =
      .error (.generatorError ("Unexpected error during type generation: " ++ "boom")) := by
  refine ⟨?_, ?_, rfl⟩
  · intro cfg load tfs now e he
    unfold generate at he
    cases hb : generateBody cfg load tfs now with
    | ok s => rw [hb] at he; cases he
    | error e0 =>
      rw [hb] at he
      cases e0 with
      | generatorError m =>
        exact ⟨m, (Except.error.inj he).symm⟩
      | plainError m =>
        exact ⟨"Unexpected error during type generation: " ++ m, (Except.error.inj he).symm⟩
  · intro cfg tfs now m hin hout
    unfold generate generateBody
    rw [if_neg hin, if_neg hout]
    rfl

/-- C5 amended, witness. -/
theorem c5_amended_witness :
    (∃ m, JsErr.generatorError ("Unexpected error during type generation: " ++ "boom") =
        .generatorError m) ∧
    generate pipeCfgDefault (.error "nope") [] "T" =
      .error (.generatorError ("Failed to read or parse input configuration: " ++ "nope")) :=
  ⟨c5_amended.1 pipeCfgDefault (.ok emptySchema) [boomTransformer] "T" _ c5_amended.2.2,
   c5_amended.2.1 pipeCfgDefault [] "T" "nope" (by decide) (by decide)⟩

/-- C7.  For every text handed to the finalize step, the output is some
text `t` followed by exactly one newline, where `t` neither starts nor
ends with whitespace (so the single appended newline is the only
terminator and the only trailing whitespace) and the whole output
contains no three consecutive newlines, i.e. no run of more than one
blank line. -/
theorem c7_finalize_normalization (s : String) :
    ∃ t : List Char,
      (formatGeneratedTypesStr s).data = t ++ ['\n'] ∧
      hasTriple (t ++ ['\n']) = false ∧
      headNotWs t = true ∧
      lastNotWs t = true := by
  refine ⟨jsTrim (collapseNlAux 0 s.data), rfl, ?_, ?_, ?_⟩
  · have h0 := collapseNlAux_hasTriple s.data 0
    have h1 := hasTriple_dropWhile isJsWs _ h0
    have h2 := hasTriple_dropTrailing _ h1
    exact hasTriple_append_one_nl _ h2 (lastNotWs_dropTrailing _)
  · exact headNotWs_dropTrailing _ (headNotWs_dropWhileWs _)
  · exact lastNotWs_dropTrailing _

/-- C9.  For every non-empty input string, the constant key produced by
the default naming transform followed by sanitization, uppercasing and
empty prefix/suffix contains only characters in `[A-Z0-9_]` and does not
start with a digit. -/
theorem c9_constant_key_sanitization :
    ∀ s : String, s ≠ "" →
      (formatConstantName s "" "" defaultNamingTransform).data.all isUpperWordChar = true ∧
      headIsDigit (formatConstantName s "" "" defaultNamingTransform).data = false := by
  intro s _
  have hmk : ∀ l : List Char, (String.mk l).data = l := fun _ => rfl
  have hdata : (formatConstantName s "" "" defaultNamingTransform).data =
      (digitGuard ((defaultNamingTransform s).data.map
        (fun c => if isWordChar c then c else '_'))).map Char.toUpper := by
    simp [formatConstantName, hmk]
  rw [hdata]
  constructor
  · exact map_toUpper_all_upperWord _ (digitGuard_all_word _ (sanitizeMap_all_word _))
  · exact headIsDigit_digitGuard_toUpper _ (sanitizeMap_all_word _)

/-- C9, witness: the input `9 li-ves!` sanitizes to `_9_LIVES`. -/
theorem c9_witness :
    ("9 li-ves!" : String) ≠ "" ∧
    ((formatConstantName "9 li-ves!" "" "" defaultNamingTransform).data.all isUpperWordChar = true ∧
     headIsDigit (formatConstantName "9 li-ves!" "" "" defaultNamingTransform).data = false) :=
  ⟨by decide, c9_constant_key_sanitization "9 li-ves!" (by decide)⟩
